import Mathlib

/-!
Flux-surface average and safety factor (`inc/geometries/average.h`), functor
bundles (`inc/geometries/fluxfunctions.h`) and the settings aggregate
(`source/blueprint.h`).

A shallow embedding of `dg::geo::DeltaFunction`, `dg::geo::Alpha`,
`dg::FluxSurfaceAverage` and `dg::SafetyFactor`.

`double` is modelled by a linearly ordered field `K` (the rationals for
evaluation, the reals for the statements "over the reals").  The libm
primitives `sqrt`, `exp` and the constant `M_PI` are a parameter `Libm K`,
so every definition below is computable.  Objects with mutable members are
records; a member function that mutates returns the new record.
-/

namespace dg

/-- The libm primitives `sqrt`, `exp` and the constant `M_PI` used by `average.h`. -/
structure Libm (K : Type) where
  /-- `sqrt` of `<cmath>`. -/
  sqrt : K → K
  /-- `exp` of `<cmath>`. -/
  exp : K → K
  /-- `M_PI` of `<cmath>`. -/
  pi : K

/-- The template parameter `Collective` of `average.h`: a geometry provider
with the members `psip`, `psipR`, `psipZ` and `ipol`, each callable as `(R,Z)`. -/
structure Collective (K : Type) where
  /-- Flux function. -/
  psip : K → K → K
  /-- Derivative of the flux function in `R`. -/
  psipR : K → K → K
  /-- Derivative of the flux function in `Z`. -/
  psipZ : K → K → K
  /-- Poloidal current. -/
  ipol : K → K → K

/-- Modelled from the spec: `dg::Grid2d` is declared outside the sources at hand.
The grid has the cell counts `Nx`, `Ny`, the per-cell order `n`, an ordered
sequence of sample nodes `(x,y)` and one quadrature weight per node. -/
structure Grid2d (K : Type) where
  /-- Number of cells in x, `Nx()`. -/
  Nx : Nat
  /-- Number of cells in y, `Ny()`. -/
  Ny : Nat
  /-- Per-cell order, `n()`. -/
  n : Nat
  /-- The sample nodes, in the grid's order. -/
  nodes : List (K × K)
  /-- The quadrature weight of each node, in the same order. -/
  w : List K

/-- Modelled from the spec: `dg::evaluate(functor, grid)` is declared outside the
sources at hand; it samples a two-argument functor at every node of the grid,
in the grid's order. -/
def evaluate {K : Type} (f : K → K → K) (g : Grid2d K) : List K :=
  g.nodes.map (fun p => f p.1 p.2)

/-- Modelled from the spec: `dg::create::weights(grid)` is declared outside the
sources at hand; it returns the per-node quadrature weights of the grid. -/
def create.weights {K : Type} (g : Grid2d K) : List K := g.w

/-- The functor `dg::one`: the constant 1. -/
def one {K : Type} [One K] (_x _y : K) : K := 1

/-- Modelled from the spec: `dg::blas2::dot(x, W, y)` is declared outside the
sources at hand; it is the weighted dot product, the sum of `x_i * W_i * y_i`. -/
def blas2.dot {K : Type} [Zero K] [Add K] [Mul K] : List K → List K → List K → K
  | x :: xs, w :: ws, y :: ys => x * w * y + blas2.dot xs ws ys
  | _, _, _ => 0

/-- The call `thrust::reduce(first, last, init, op)`: a left fold from `init`. -/
def thrust.reduce {K : Type} (l : List K) (init : K) (op : K → K → K) : K :=
  l.foldl op init

/-- The functor `thrust::maximum<double>()`. -/
def thrust.maximum {K : Type} [Max K] (a b : K) : K := max a b

namespace geo

/-- The members of `DeltaFunction<Collective>`: `c_`, `epsilon_`, `psivalue_`.
The constructor `DeltaFunction(c, epsilon, psivalue)` stores its three
arguments and is the record constructor `DeltaFunction.mk`. -/
structure DeltaFunction (K : Type) where
  /-- Member `c_`. -/
  c : Collective K
  /-- Member `epsilon_`. -/
  epsilon : K
  /-- Member `psivalue_`. -/
  psivalue : K

/-- The member `void setepsilon(double eps){epsilon_ = eps;}`. -/
def DeltaFunction.setepsilon {K : Type} (d : DeltaFunction K) (eps : K) : DeltaFunction K :=
  { d with epsilon := eps }

/-- The member `void setpsi(double psi_0){psivalue_ = psi_0;}`. -/
def DeltaFunction.setpsi {K : Type} (d : DeltaFunction K) (psi_0 : K) : DeltaFunction K :=
  { d with psivalue := psi_0 }

/-- The member `double operator()(double R, double Z) const` of `DeltaFunction`. -/
def DeltaFunction.call {K : Type} [LinearOrderedField K] (m : Libm K)
    (d : DeltaFunction K) (R Z : K) : K :=
  let psip := d.c.psip R Z
  let psipR := d.c.psipR R Z
  let psipZ := d.c.psipZ R Z
  1 / m.sqrt (2 * m.pi * d.epsilon) *
    m.exp (-((psip - d.psivalue) * (psip - d.psivalue)) / 2 / d.epsilon) *
    m.sqrt (psipR * psipR + psipZ * psipZ)

/-- The members of `Alpha<Collective>`: `c_`. -/
structure Alpha (K : Type) where
  /-- Member `c_`. -/
  c : Collective K

/-- The member `double operator()(double R, double Z) const` of `Alpha`. -/
def Alpha.call {K : Type} [LinearOrderedField K] (m : Libm K) (a : Alpha K) (R Z : K) : K :=
  let psipR := a.c.psipR R Z
  let psipZ := a.c.psipZ R Z
  (1 / R) * (a.c.ipol R Z / m.sqrt (psipR * psipR + psipZ * psipZ))

end geo

/-- The members of `FluxSurfaceAverage<Collective, container>`. -/
structure FluxSurfaceAverage (K : Type) where
  /-- Member `g2d_`. -/
  g2d : Grid2d K
  /-- Member `f_`. -/
  f : List K
  /-- Member `deltaf_`. -/
  deltaf : geo.DeltaFunction K
  /-- Member `w2d_`. -/
  w2d : List K
  /-- Member `oneongrid_`. -/
  oneongrid : List K

/-- The constructor `FluxSurfaceAverage(g2d, c, f)`. -/
def FluxSurfaceAverage.construct {K : Type} [LinearOrderedField K]
    (g2d : Grid2d K) (c : Collective K) (f : List K) : FluxSurfaceAverage K :=
  let self : FluxSurfaceAverage K :=
    { g2d := g2d
      f := f
      deltaf := geo.DeltaFunction.mk c 0 0
      w2d := create.weights g2d
      oneongrid := evaluate one g2d }
  let psipRog2d := evaluate c.psipR self.g2d
  let psipZog2d := evaluate c.psipZ self.g2d
  let psipRmax := thrust.reduce psipRog2d 0 thrust.maximum
  let psipZmax := thrust.reduce psipZog2d 0 thrust.maximum
  let deltapsi := |psipZmax / (self.g2d.Ny : K) / (self.g2d.n : K)
                    + psipRmax / (self.g2d.Nx : K) / (self.g2d.n : K)|
  { self with deltaf := self.deltaf.setepsilon deltapsi }

/-- The member `double operator()(double psip0)` of `FluxSurfaceAverage`:
the returned value and the object after the call. -/
def FluxSurfaceAverage.call {K : Type} [LinearOrderedField K] (m : Libm K)
    (self : FluxSurfaceAverage K) (psip0 : K) : K × FluxSurfaceAverage K :=
  let self1 := { self with deltaf := self.deltaf.setpsi psip0 }
  let deltafog2d := evaluate (self1.deltaf.call m) self1.g2d
  let psipcut := blas2.dot self1.f self1.w2d deltafog2d
  let vol := blas2.dot self1.oneongrid self1.w2d deltafog2d
  let fsa := psipcut / vol
  (fsa, self1)

/-- The members of `SafetyFactor<Collective, container>`. -/
structure SafetyFactor (K : Type) where
  /-- Member `g2d_`. -/
  g2d : Grid2d K
  /-- Member `f_`. -/
  f : List K
  /-- Member `deltaf_`. -/
  deltaf : geo.DeltaFunction K
  /-- Member `w2d_`. -/
  w2d : List K
  /-- Member `oneongrid_`. -/
  oneongrid : List K

/-- The constructor `SafetyFactor(g2d, c, f)`. -/
def SafetyFactor.construct {K : Type} [LinearOrderedField K]
    (g2d : Grid2d K) (c : Collective K) (f : List K) : SafetyFactor K :=
  let self : SafetyFactor K :=
    { g2d := g2d
      f := f
      deltaf := geo.DeltaFunction.mk c 0 0
      w2d := create.weights g2d
      oneongrid := evaluate one g2d }
  let psipRog2d := evaluate c.psipR self.g2d
  let psipZog2d := evaluate c.psipZ self.g2d
  let psipRmax := thrust.reduce psipRog2d 0 thrust.maximum
  let psipZmax := thrust.reduce psipZog2d 0 thrust.maximum
  let deltapsi := |psipZmax / (self.g2d.Ny : K) + psipRmax / (self.g2d.Nx : K)|
  { self with deltaf := self.deltaf.setepsilon (4 * deltapsi) }

/-- The member `double operator()(double psip0)` of `SafetyFactor`:
the returned value and the object after the call. -/
def SafetyFactor.call {K : Type} [LinearOrderedField K] (m : Libm K)
    (self : SafetyFactor K) (psip0 : K) : K × SafetyFactor K :=
  let self1 := { self with deltaf := self.deltaf.setpsi psip0 }
  let deltafog2d := evaluate (self1.deltaf.call m) self1.g2d
  let q := blas2.dot self1.f self1.w2d deltafog2d / (2 * m.pi)
  (q, self1)

/-! ## Concrete inputs over the rationals -/

/-- A grid of one cell with two nodes and the weights 1 and 1. -/
def grid2 : Grid2d ℚ := { Nx := 1, Ny := 1, n := 2, nodes := [(1, 0), (0, 1)], w := [1, 1] }

/-- A geometry with `psip = R + Z`, `psipR = 1`, `psipZ = 1`, `ipol = 2`. -/
def geomLin : Collective ℚ :=
  { psip := fun R Z => R + Z, psipR := fun _ _ => 1, psipZ := fun _ _ => 1, ipol := fun _ _ => 2 }

/-- A grid of one cell with one node at `(1,1)` and the weight 1. -/
def grid1 : Grid2d ℚ := { Nx := 1, Ny := 1, n := 1, nodes := [(1, 1)], w := [1] }

/-- A geometry whose flux derivatives are negative everywhere:
`psip = -R - Z`, `psipR = -1`, `psipZ = -1`, `ipol = 1`. -/
def geomNeg : Collective ℚ :=
  { psip := fun R Z => -R - Z, psipR := fun _ _ => -1, psipZ := fun _ _ => -1,
    ipol := fun _ _ => 1 }

/-- A real grid of one cell with one node at `(1,1)` and the weight 1. -/
def gridR1 : Grid2d ℝ := { Nx := 1, Ny := 1, n := 1, nodes := [(1, 1)], w := [1] }

/-- A real geometry with `psip = R + Z`, `psipR = 1`, `psipZ = 1`, `ipol = 1`. -/
def geomR : Collective ℝ :=
  { psip := fun R Z => R + Z, psipR := fun _ _ => 1, psipZ := fun _ _ => 1, ipol := fun _ _ => 1 }

namespace geo

/-- One mutating call on a `DeltaFunction`: `setepsilon(eps)` or `setpsi(psi_0)`. -/
inductive DeltaOp (K : Type) where
  /-- The call `setepsilon(eps)`. -/
  | setepsilon (eps : K) : DeltaOp K
  /-- The call `setpsi(psi_0)`. -/
  | setpsi (psi_0 : K) : DeltaOp K

/-- The object after one mutating call. -/
def DeltaFunction.step {K : Type} (d : DeltaFunction K) : DeltaOp K → DeltaFunction K
  | DeltaOp.setepsilon eps => d.setepsilon eps
  | DeltaOp.setpsi psi_0 => d.setpsi psi_0

/-- The object after a sequence of mutating calls, first call first. -/
def DeltaFunction.run {K : Type} (d : DeltaFunction K) (ops : List (DeltaOp K)) :
    DeltaFunction K :=
  ops.foldl DeltaFunction.step d

end geo

/-- The bandwidth formula of the flux-surface average in the specification's
words, `|maxZ/(Ny*n) + maxR/(Nx*n)|`, as a function of the two maxima. -/
def specBandwidth {K : Type} [LinearOrderedField K] (g : Grid2d K) (maxZ maxR : K) : K :=
  |maxZ / ((g.Ny : K) * (g.n : K)) + maxR / ((g.Nx : K) * (g.n : K))|

/-- The bandwidth formula of the safety factor in the specification's words,
`4 * |maxZ/Ny + maxR/Nx|`, as a function of the two maxima. -/
def specSafetyBandwidth {K : Type} [LinearOrderedField K] (g : Grid2d K) (maxZ maxR : K) : K :=
  4 * |maxZ / (g.Ny : K) + maxR / (g.Nx : K)|

/-- The bandwidth a `DeltaFunction` was last given: the argument of the last
`setepsilon` call of the sequence, or `eps` (the constructor's argument) when the
sequence has no such call. -/
def geo.lastEpsilon {K : Type} (eps : K) : List (geo.DeltaOp K) → K
  | [] => eps
  | geo.DeltaOp.setepsilon e :: rest => geo.lastEpsilon e rest
  | geo.DeltaOp.setpsi _ :: rest => geo.lastEpsilon eps rest

/-- The object after a sequence of `operator()` calls on a `FluxSurfaceAverage`,
one call per level, first level first. -/
def FluxSurfaceAverage.calls {K : Type} [LinearOrderedField K] (m : Libm K)
    (self : FluxSurfaceAverage K) (levels : List K) : FluxSurfaceAverage K :=
  levels.foldl (fun s psip0 => (s.call m psip0).2) self

/-- The object after a sequence of `operator()` calls on a `SafetyFactor`,
one call per level, first level first. -/
def SafetyFactor.calls {K : Type} [LinearOrderedField K] (m : Libm K)
    (self : SafetyFactor K) (levels : List K) : SafetyFactor K :=
  levels.foldl (fun s psip0 => (s.call m psip0).2) self

/-! ## Functors and functor bundles (`inc/geometries/fluxfunctions.h`) -/

/-- Modelled from the spec: `Handle<cloneable>` is declared outside the sources at
hand. A handle holds at most one object; `ptr = none` is the handle that owns
nothing (also the state after it was given a null pointer). -/
structure Handle (α : Type) where
  /-- The owned object, if any. -/
  ptr : Option α

/-- Modelled from the spec: the default-constructed `Handle`, which owns nothing. -/
def Handle.empty {α : Type} : Handle α := { ptr := none }

/-- Modelled from the spec: `Handle::set(ptr)` releases what the handle owned and
takes ownership of the object `ptr` points to; `none` is the null pointer. -/
def Handle.set {α : Type} (_h : Handle α) (p : Option α) : Handle α := { ptr := p }

/-- Modelled from the spec: `Handle::get()` gives the owned object; accessing it when
none is owned fails with the empty-handle condition, which is the result `none`. -/
def Handle.get {α : Type} (h : Handle α) : Option α := h.ptr

namespace geo

/-- The abstract class `aBinaryFunctor`, given by its evaluation rule: the pure
virtual `double operator()(double R, double Z) const`. -/
structure aBinaryFunctor (K : Type) where
  /-- The member `operator()(R, Z)`. -/
  call : K → K → K

/-- The member `double operator()(double R, double Z, double phi)` of
`aBinaryFunctor`, which redirects to the two-argument version. -/
def aBinaryFunctor.call3 {K : Type} (self : aBinaryFunctor K) (R Z _phi : K) : K :=
  self.call R Z

/-- The member `clone()` of `aCloneableBinaryFunctor<Derived>`:
`new Derived(static_cast<Derived const &>(*this))`, the copy constructor of
`Derived` applied to the object itself. -/
def aCloneableBinaryFunctor.clone {Derived : Type} (copy : Derived → Derived)
    (self : Derived) : Derived :=
  copy self

/-- The members of `BinaryFunctorAdapter<BinaryFunctor>`: `f_`. A callable with
`double operator()(double,double) const` is given by its evaluation rule.
The constructor `BinaryFunctorAdapter(f)` stores `f` and is `BinaryFunctorAdapter.mk`. -/
structure BinaryFunctorAdapter (K : Type) where
  /-- Member `f_`. -/
  f : K → K → K

/-- The implicit copy constructor of `BinaryFunctorAdapter`: it copies `f_` by value. -/
def BinaryFunctorAdapter.copy {K : Type} (o : BinaryFunctorAdapter K) :
    BinaryFunctorAdapter K :=
  { f := o.f }

/-- The member `double operator()(double x, double y) const {return f_(x,y);}`. -/
def BinaryFunctorAdapter.call {K : Type} (self : BinaryFunctorAdapter K) (x y : K) : K :=
  self.f x y

/-- The member `clone()` that `BinaryFunctorAdapter` inherits from the clone helper. -/
def BinaryFunctorAdapter.clone {K : Type} (self : BinaryFunctorAdapter K) :
    BinaryFunctorAdapter K :=
  aCloneableBinaryFunctor.clone BinaryFunctorAdapter.copy self

/-- The conversion of a `BinaryFunctorAdapter` to its base class `aBinaryFunctor`. -/
def BinaryFunctorAdapter.toBinaryFunctor {K : Type} (self : BinaryFunctorAdapter K) :
    aBinaryFunctor K :=
  { call := self.call }

/-- The function `make_aBinaryFunctor(f)`: `new BinaryFunctorAdapter<BinaryFunctor>(f)`,
a non-null pointer to the adapter seen as `aBinaryFunctor`. -/
def make_aBinaryFunctor {K : Type} (f : K → K → K) : Option (aBinaryFunctor K) :=
  some (BinaryFunctorAdapter.mk f).toBinaryFunctor

/-- The members of `Constant`: `c_`. The constructor `Constant(c)` stores `c` and is
`Constant.mk`. -/
structure Constant (K : Type) where
  /-- Member `c_`. -/
  c : K

/-- The implicit copy constructor of `Constant`: it copies `c_`. -/
def Constant.copy {K : Type} (o : Constant K) : Constant K := { c := o.c }

/-- The member `double operator()(double R,double Z)const{return c_;}`. -/
def Constant.call {K : Type} (self : Constant K) (_R _Z : K) : K := self.c

/-- The member `clone()` that `Constant` inherits from the clone helper. -/
def Constant.clone {K : Type} (self : Constant K) : Constant K :=
  aCloneableBinaryFunctor.clone Constant.copy self

/-- The members of `BinaryFunctorsLvl1`: the array `p_[3]` of handles. -/
structure BinaryFunctorsLvl1 (K : Type) where
  /-- Element `p_[0]`. -/
  p_0 : Handle (aBinaryFunctor K)
  /-- Element `p_[1]`. -/
  p_1 : Handle (aBinaryFunctor K)
  /-- Element `p_[2]`. -/
  p_2 : Handle (aBinaryFunctor K)

/-- The constructor `BinaryFunctorsLvl1(f, fx, fy)`; a pointer argument is `none`
when it is null. The handles are default-constructed, then set. -/
def BinaryFunctorsLvl1.construct {K : Type} (f fx fy : Option (aBinaryFunctor K)) :
    BinaryFunctorsLvl1 K :=
  let self : BinaryFunctorsLvl1 K := { p_0 := Handle.empty, p_1 := Handle.empty, p_2 := Handle.empty }
  let self := { self with p_0 := self.p_0.set f }
  let self := { self with p_1 := self.p_1.set fx }
  { self with p_2 := self.p_2.set fy }

/-- The accessor `f()` of `BinaryFunctorsLvl1`: `p_[0].get()`. -/
def BinaryFunctorsLvl1.f {K : Type} (self : BinaryFunctorsLvl1 K) : Option (aBinaryFunctor K) :=
  self.p_0.get

/-- The accessor `dfx()` of `BinaryFunctorsLvl1`: `p_[1].get()`. -/
def BinaryFunctorsLvl1.dfx {K : Type} (self : BinaryFunctorsLvl1 K) :
    Option (aBinaryFunctor K) :=
  self.p_1.get

/-- The accessor `dfy()` of `BinaryFunctorsLvl1`: `p_[2].get()`. -/
def BinaryFunctorsLvl1.dfy {K : Type} (self : BinaryFunctorsLvl1 K) :
    Option (aBinaryFunctor K) :=
  self.p_2.get

/-- The members of `BinaryFunctorsLvl2`: the base-class subobject `BinaryFunctorsLvl1`
with its private array `p_`, and the class's own private array `p_[3]`, which is a
different array of the same name. -/
structure BinaryFunctorsLvl2 (K : Type) where
  /-- The base-class subobject. -/
  base : BinaryFunctorsLvl1 K
  /-- Element `p_[0]` of the array of `BinaryFunctorsLvl2`. -/
  p_0 : Handle (aBinaryFunctor K)
  /-- Element `p_[1]` of the array of `BinaryFunctorsLvl2`. -/
  p_1 : Handle (aBinaryFunctor K)
  /-- Element `p_[2]` of the array of `BinaryFunctorsLvl2`. -/
  p_2 : Handle (aBinaryFunctor K)

/-- The constructor `BinaryFunctorsLvl2(f, fx, fy, fxx, fxy, fyy)`: the base class is
initialised with `BinaryFunctorsLvl1(f,fx,fy)`; in the body `p_` names the array of
`BinaryFunctorsLvl2`. -/
def BinaryFunctorsLvl2.construct {K : Type}
    (f fx fy fxx fxy fyy : Option (aBinaryFunctor K)) : BinaryFunctorsLvl2 K :=
  let self : BinaryFunctorsLvl2 K :=
    { base := BinaryFunctorsLvl1.construct f fx fy
      p_0 := Handle.empty, p_1 := Handle.empty, p_2 := Handle.empty }
  let self := { self with p_0 := self.p_0.set fxx }
  let self := { self with p_1 := self.p_1.set fxy }
  { self with p_2 := self.p_2.set fyy }

/-- The accessor `f()` that `BinaryFunctorsLvl2` inherits from `BinaryFunctorsLvl1`. -/
def BinaryFunctorsLvl2.f {K : Type} (self : BinaryFunctorsLvl2 K) : Option (aBinaryFunctor K) :=
  self.base.f

/-- The accessor `dfx()` that `BinaryFunctorsLvl2` inherits from `BinaryFunctorsLvl1`. -/
def BinaryFunctorsLvl2.dfx {K : Type} (self : BinaryFunctorsLvl2 K) :
    Option (aBinaryFunctor K) :=
  self.base.dfx

/-- The accessor `dfy()` that `BinaryFunctorsLvl2` inherits from `BinaryFunctorsLvl1`. -/
def BinaryFunctorsLvl2.dfy {K : Type} (self : BinaryFunctorsLvl2 K) :
    Option (aBinaryFunctor K) :=
  self.base.dfy

/-- The accessor `dfxx()` of `BinaryFunctorsLvl2`: `p_[0].get()`. -/
def BinaryFunctorsLvl2.dfxx {K : Type} (self : BinaryFunctorsLvl2 K) :
    Option (aBinaryFunctor K) :=
  self.p_0.get

/-- The accessor `dfxy()` of `BinaryFunctorsLvl2`: `p_[1].get()`. -/
def BinaryFunctorsLvl2.dfxy {K : Type} (self : BinaryFunctorsLvl2 K) :
    Option (aBinaryFunctor K) :=
  self.p_1.get

/-- The accessor `dfyy()` of `BinaryFunctorsLvl2`: `p_[2].get()`. -/
def BinaryFunctorsLvl2.dfyy {K : Type} (self : BinaryFunctorsLvl2 K) :
    Option (aBinaryFunctor K) :=
  self.p_2.get

/-- The members of `BinarySymmTensorLvl1`: the array `p_[5]` of handles. -/
structure BinarySymmTensorLvl1 (K : Type) where
  /-- Element `p_[0]`. -/
  p_0 : Handle (aBinaryFunctor K)
  /-- Element `p_[1]`. -/
  p_1 : Handle (aBinaryFunctor K)
  /-- Element `p_[2]`. -/
  p_2 : Handle (aBinaryFunctor K)
  /-- Element `p_[3]`. -/
  p_3 : Handle (aBinaryFunctor K)
  /-- Element `p_[4]`. -/
  p_4 : Handle (aBinaryFunctor K)

/-- The constructor `BinarySymmTensorLvl1(chi_xx, chi_xy, chi_yy, divChiX, divChiY)`. -/
def BinarySymmTensorLvl1.construct {K : Type}
    (chi_xx chi_xy chi_yy divChiX divChiY : Option (aBinaryFunctor K)) :
    BinarySymmTensorLvl1 K :=
  let self : BinarySymmTensorLvl1 K :=
    { p_0 := Handle.empty, p_1 := Handle.empty, p_2 := Handle.empty,
      p_3 := Handle.empty, p_4 := Handle.empty }
  let self := { self with p_0 := self.p_0.set chi_xx }
  let self := { self with p_1 := self.p_1.set chi_xy }
  let self := { self with p_2 := self.p_2.set chi_yy }
  let self := { self with p_3 := self.p_3.set divChiX }
  { self with p_4 := self.p_4.set divChiY }

/-- The members of `BinaryVectorLvl0`: the array `p_[3]` of handles. -/
structure BinaryVectorLvl0 (K : Type) where
  /-- Element `p_[0]`. -/
  p_0 : Handle (aBinaryFunctor K)
  /-- Element `p_[1]`. -/
  p_1 : Handle (aBinaryFunctor K)
  /-- Element `p_[2]`. -/
  p_2 : Handle (aBinaryFunctor K)

/-- The constructor `BinaryVectorLvl0(v_x, v_y, v_z)`. -/
def BinaryVectorLvl0.construct {K : Type} (v_x v_y v_z : Option (aBinaryFunctor K)) :
    BinaryVectorLvl0 K :=
  let self : BinaryVectorLvl0 K := { p_0 := Handle.empty, p_1 := Handle.empty, p_2 := Handle.empty }
  let self := { self with p_0 := self.p_0.set v_x }
  let self := { self with p_1 := self.p_1.set v_y }
  { self with p_2 := self.p_2.set v_z }

end geo

/-- A real grid of one cell with the two nodes `(1,0)`, `(0,1)` and the weights 1, 2. -/
def gridR2 : Grid2d ℝ := { Nx := 1, Ny := 1, n := 1, nodes := [(1, 0), (0, 1)], w := [1, 2] }

end dg

/-! ## The settings aggregate (`source/blueprint.h`) -/

namespace toefl

/-- The members of `Physical`; the arrays `g[3]`, `kappa[2]`, `a[2]`, `tau[2]` are
given element by element. -/
structure Physical (K : Type) where
  /-- Member `d`. -/
  d : K
  /-- Member `nu`. -/
  nu : K
  /-- Element `g[0]`. -/
  g_0 : K
  /-- Element `g[1]`. -/
  g_1 : K
  /-- Element `g[2]`. -/
  g_2 : K
  /-- Element `kappa[0]`, the curvature in x, read as `kappa_x` by the check. -/
  kappa_x : K
  /-- Element `kappa[1]`, the curvature in y, read as `kappa_y` by the check. -/
  kappa_y : K
  /-- Element `a[0]`. -/
  a_0 : K
  /-- Element `a[1]`. -/
  a_1 : K
  /-- Member `mu_z`. -/
  mu_z : K
  /-- Element `tau[0]`. -/
  tau_0 : K
  /-- Element `tau[1]`. -/
  tau_1 : K

/-- The boundary conditions `enum bc` named in `Boundary::display`. -/
inductive bc where
  | TL_PERIODIC | TL_DST00 | TL_DST01 | TL_DST10 | TL_DST11

/-- The members of `Boundary`. -/
structure Boundary (K : Type) where
  /-- Member `lx`. -/
  lx : K
  /-- Member `ly`. -/
  ly : K
  /-- Member `bc_x`. -/
  bc_x : bc

/-- The members of `Algorithmic`. -/
structure Algorithmic (K : Type) where
  /-- Member `nx`. -/
  nx : Nat
  /-- Member `ny`. -/
  ny : Nat
  /-- Member `h`, documented as `ly/ny`. -/
  h : K
  /-- Member `dt`. -/
  dt : K

/-- The members of `Blueprint`. -/
structure Blueprint (K : Type) where
  /-- Member `phys`. -/
  phys : Physical K
  /-- Member `bound`. -/
  bound : Boundary K
  /-- Member `alg`. -/
  alg : Algorithmic K
  /-- Member `curvature`. -/
  curvature : Bool
  /-- Member `coupling`. -/
  coupling : Bool
  /-- Member `imp`. -/
  imp : Bool
  /-- Member `global`. -/
  global : Bool

/-- The constructor `Blueprint(phys, bound, alg)`: all capacities disabled. -/
def Blueprint.construct {K : Type} (phys : Physical K) (bound : Boundary K)
    (alg : Algorithmic K) : Blueprint K :=
  { phys := phys, bound := bound, alg := alg
    curvature := false, coupling := false, imp := false, global := false }

/-- The member `void consistencyCheck() const`. A thrown `toefl::Message` is the
error result, given by its text without the final newline; the value returned otherwise is the list of
warnings written to `std::cerr`. The check reads `phys.mu_i`, which `Physical`
does not declare: it is the parameter `mu_i`. The literal `1e-15` is `1/10^15`.
For `nx = 0` or `ny = 0` the quotient `lx/nx` is a floating-point infinity in the
code and `0` here, so the definition follows the code for `nx, ny > 0`. -/
def Blueprint.consistencyCheck {K : Type} [LinearOrderedField K]
    (self : Blueprint K) (mu_i : K) : Except String (List String) :=
  if self.alg.dt ≤ 0 then
    Except.error "dt <= 0!"
  else if self.alg.h - self.bound.lx / (self.alg.nx : K) > 1 / 10 ^ 15 then
    Except.error "h != lx/nx"
  else if self.alg.h - self.bound.ly / (self.alg.ny : K) > 1 / 10 ^ 15 then
    Except.error "h != ly/ny"
  else if self.alg.nx = 0 ∨ self.alg.ny = 0 then
    Except.error "Set nx and ny!"
  else if self.curvature = true ∧ self.phys.kappa_x = 0 ∧ self.phys.kappa_y = 0 then
    Except.error "Curvature enabled but zero!"
  else if self.phys.nu < 0 then
    Except.error "nu < 0!"
  else if self.phys.a_0 ≤ 0 ∨ mu_i ≤ 0 ∨ self.phys.tau_0 < 0 then
    Except.error "Ion species badly set"
  else if self.imp = true ∧
      (self.phys.a_1 ≤ 0 ∨ self.phys.mu_z ≤ 0 ∨ self.phys.tau_1 < 0) then
    Except.error "Impuritiy species badly set"
  else if self.phys.a_0 + self.phys.a_1 ≠ 1 then
    Except.error "a[0] + a[1] != 1"
  else if self.phys.g_1 ≠
      (self.phys.g_0 - self.phys.a_1 * self.phys.g_2) / (1 - self.phys.a_1) then
    Except.error "g[1] is wrong"
  else if self.global = true then
    Except.error "Global solver not yet implemented"
  else
    let w1 : List String :=
      if self.curvature = false ∧ (self.phys.kappa_x ≠ 0 ∨ self.phys.kappa_y ≠ 0) then
        ["TL_WARNING: Curvature disabled but kappa not zero (will be ignored)!"]
      else []
    let w2 : List String :=
      if self.imp = false ∧
          (self.phys.a_1 ≠ 0 ∨ self.phys.mu_z ≠ 0 ∨ self.phys.tau_1 ≠ 0) then
        ["TL_WARNING: Impurity disabled but z species not 0 (will be ignored)!"]
      else []
    Except.ok (w1 ++ w2)

/-- Physical parameters that pass every check on them: one ion species with
`a[0] = 1`, no impurities, no curvature, all gradients zero. -/
def physOk : Physical ℚ :=
  { d := 0, nu := 0, g_0 := 0, g_1 := 0, g_2 := 0, kappa_x := 0, kappa_y := 0,
    a_0 := 1, a_1 := 0, mu_z := 0, tau_0 := 0, tau_1 := 0 }

/-- A blueprint on the box `lx = ly = 1` with `nx = ny = 1` (so `lx/nx = ly/ny = 1`),
time step 1 and the grid constant `h`. -/
def blueprintWithH (h : ℚ) : Blueprint ℚ :=
  Blueprint.construct physOk { lx := 1, ly := 1, bc_x := bc.TL_PERIODIC }
    { nx := 1, ny := 1, h := h, dt := 1 }

end toefl

namespace dg

/-! ## Auxiliary lemmas -/

theorem evaluate_one_eq_replicate {K : Type} [One K] (g : Grid2d K) :
    evaluate one g = List.replicate g.nodes.length 1 := by
  unfold evaluate one
  induction g.nodes with
  | nil => rfl
  | cons p ps ih => simp [List.replicate_succ, ih]

theorem foldl_max_coe {K : Type} [LinearOrder K] (l : List K) (a : K) :
    ((l.foldl max a : K) : WithBot K) = max (a : WithBot K) l.maximum := by
  induction l generalizing a with
  | nil => simp
  | cons x xs ih =>
    rw [List.foldl_cons, ih, List.maximum_cons, WithBot.coe_max, max_assoc]

theorem reduce_maximum_coe {K : Type} [LinearOrder K] [Zero K] (l : List K) :
    ((thrust.reduce l 0 thrust.maximum : K) : WithBot K) = max ((0 : K) : WithBot K) l.maximum := by
  have h := foldl_max_coe l (0 : K)
  exact h

theorem run_epsilon_pos {K : Type} [LinearOrderedField K] (ops : List (geo.DeltaOp K))
    (d : geo.DeltaFunction K) (hd : 0 < d.epsilon)
    (hops : ∀ e, geo.DeltaOp.setepsilon e ∈ ops → 0 < e) :
    0 < (d.run ops).epsilon := by
  induction ops generalizing d with
  | nil => exact hd
  | cons op rest ih =>
    have hrest : ∀ e, geo.DeltaOp.setepsilon e ∈ rest → 0 < e :=
      fun e he => hops e (List.mem_cons_of_mem _ he)
    cases op with
    | setepsilon e =>
      exact ih (d.setepsilon e) (hops e (List.mem_cons_self _ _)) hrest
    | setpsi p =>
      exact ih (d.setpsi p) hd hrest

theorem fsa_calls_frame {K : Type} [LinearOrderedField K] (m : Libm K)
    (levels : List K) (s : FluxSurfaceAverage K) :
    (s.calls m levels).g2d = s.g2d ∧ (s.calls m levels).f = s.f ∧
    (s.calls m levels).w2d = s.w2d ∧ (s.calls m levels).oneongrid = s.oneongrid ∧
    (s.calls m levels).deltaf.epsilon = s.deltaf.epsilon ∧
    (s.calls m levels).deltaf.c = s.deltaf.c := by
  induction levels generalizing s with
  | nil => exact ⟨rfl, rfl, rfl, rfl, rfl, rfl⟩
  | cons psi rest ih => exact ih (s.call m psi).2

theorem fsa_call_congr {K : Type} [LinearOrderedField K] (m : Libm K)
    (s t : FluxSurfaceAverage K) (psi0 : K) (hg : t.g2d = s.g2d) (hf : t.f = s.f)
    (hw : t.w2d = s.w2d) (ho : t.oneongrid = s.oneongrid)
    (he : t.deltaf.epsilon = s.deltaf.epsilon) (hc : t.deltaf.c = s.deltaf.c) :
    (t.call m psi0).1 = (s.call m psi0).1 := by
  obtain ⟨g, f, ⟨c, e, p⟩, w, o⟩ := s
  obtain ⟨g2, f2, ⟨c2, e2, p2⟩, w2, o2⟩ := t
  simp only at hg hf hw ho he hc
  subst hg hf hw ho he hc
  rfl

theorem safetyFactor_calls_frame {K : Type} [LinearOrderedField K] (m : Libm K)
    (levels : List K) (s : SafetyFactor K) :
    (s.calls m levels).g2d = s.g2d ∧ (s.calls m levels).f = s.f ∧
    (s.calls m levels).w2d = s.w2d ∧ (s.calls m levels).oneongrid = s.oneongrid ∧
    (s.calls m levels).deltaf.epsilon = s.deltaf.epsilon ∧
    (s.calls m levels).deltaf.c = s.deltaf.c := by
  induction levels generalizing s with
  | nil => exact ⟨rfl, rfl, rfl, rfl, rfl, rfl⟩
  | cons psi rest ih => exact ih (s.call m psi).2

theorem safetyFactor_call_congr {K : Type} [LinearOrderedField K] (m : Libm K)
    (s t : SafetyFactor K) (psi0 : K) (hg : t.g2d = s.g2d) (hf : t.f = s.f)
    (hw : t.w2d = s.w2d) (he : t.deltaf.epsilon = s.deltaf.epsilon)
    (hc : t.deltaf.c = s.deltaf.c) :
    (t.call m psi0).1 = (s.call m psi0).1 := by
  obtain ⟨g, f, ⟨c, e, p⟩, w, o⟩ := s
  obtain ⟨g2, f2, ⟨c2, e2, p2⟩, w2, o2⟩ := t
  simp only at hg hf hw he hc
  subst hg hf hw he hc
  rfl

theorem list_exists_min {K : Type} [LinearOrder K] (l : List K) (h : l ≠ []) :
    ∃ a ∈ l, ∀ x ∈ l, a ≤ x := by
  induction l with
  | nil => exact absurd rfl h
  | cons y ys ih =>
    by_cases hys : ys = []
    · subst hys
      exact ⟨y, by simp, by simp⟩
    · obtain ⟨a, ha, hmin⟩ := ih hys
      rcases le_total y a with h1 | h1
      · refine ⟨y, by simp, ?_⟩
        intro x hx
        rcases List.mem_cons.mp hx with rfl | hx
        · exact le_rfl
        · exact le_trans h1 (hmin x hx)
      · refine ⟨a, List.mem_cons_of_mem _ ha, ?_⟩
        intro x hx
        rcases List.mem_cons.mp hx with rfl | hx
        · exact h1
        · exact hmin x hx

theorem list_exists_max {K : Type} [LinearOrder K] (l : List K) (h : l ≠ []) :
    ∃ b ∈ l, ∀ x ∈ l, x ≤ b := by
  induction l with
  | nil => exact absurd rfl h
  | cons y ys ih =>
    by_cases hys : ys = []
    · subst hys
      exact ⟨y, by simp, by simp⟩
    · obtain ⟨b, hb, hmax⟩ := ih hys
      rcases le_total y b with h1 | h1
      · refine ⟨b, List.mem_cons_of_mem _ hb, ?_⟩
        intro x hx
        rcases List.mem_cons.mp hx with rfl | hx
        · exact h1
        · exact hmax x hx
      · refine ⟨y, by simp, ?_⟩
        intro x hx
        rcases List.mem_cons.mp hx with rfl | hx
        · exact le_rfl
        · exact le_trans (hmax x hx) h1

theorem dot_one_nonneg {K α : Type} [LinearOrderedField K] (δ : α → K) (nodes : List α)
    (w : List K) (hw : ∀ x ∈ w, 0 < x) (hδ : ∀ p ∈ nodes, 0 ≤ δ p) :
    0 ≤ blas2.dot (nodes.map (fun _ => (1 : K))) w (nodes.map δ) := by
  induction nodes generalizing w with
  | nil => simp [blas2.dot]
  | cons p ps ih =>
    cases w with
    | nil => simp [blas2.dot]
    | cons v vs =>
      simp only [List.map_cons, blas2.dot]
      have hv : 0 < v := hw v (List.mem_cons_self _ _)
      have hp : 0 ≤ δ p := hδ p (List.mem_cons_self _ _)
      have hrest := ih vs (fun x hx => hw x (List.mem_cons_of_mem _ hx))
        (fun q hq => hδ q (List.mem_cons_of_mem _ hq))
      have : 0 ≤ 1 * v * δ p := by positivity
      linarith

theorem dot_one_pos {K α : Type} [LinearOrderedField K] (δ : α → K) (nodes : List α)
    (w : List K) (hlen : w.length = nodes.length) (hw : ∀ x ∈ w, 0 < x)
    (hδ : ∀ p ∈ nodes, 0 ≤ δ p) (hpos : ∃ p ∈ nodes, 0 < δ p) :
    0 < blas2.dot (nodes.map (fun _ => (1 : K))) w (nodes.map δ) := by
  induction nodes generalizing w with
  | nil => obtain ⟨p, hp, _⟩ := hpos; simp at hp
  | cons p ps ih =>
    cases w with
    | nil => simp at hlen
    | cons v vs =>
      simp only [List.map_cons, blas2.dot]
      have hv : 0 < v := hw v (List.mem_cons_self _ _)
      have hp : 0 ≤ δ p := hδ p (List.mem_cons_self _ _)
      have hw2 : ∀ x ∈ vs, 0 < x := fun x hx => hw x (List.mem_cons_of_mem _ hx)
      have hδ2 : ∀ q ∈ ps, 0 ≤ δ q := fun q hq => hδ q (List.mem_cons_of_mem _ hq)
      have hrest := dot_one_nonneg δ ps vs hw2 hδ2
      obtain ⟨q, hq, hqpos⟩ := hpos
      rcases List.mem_cons.mp hq with rfl | hq2
      · have : 0 < 1 * v * δ q := by positivity
        linarith
      · have h2 := ih vs (by simpa using hlen) hw2 hδ2 ⟨q, hq2, hqpos⟩
        have : 0 ≤ 1 * v * δ p := by positivity
        linarith

theorem dot_lower {K α : Type} [LinearOrderedField K] (δ : α → K) (lo : K) (nodes : List α)
    (f w : List K) (hf : f.length = nodes.length) (hlen : w.length = nodes.length)
    (hw : ∀ x ∈ w, 0 < x) (hδ : ∀ p ∈ nodes, 0 ≤ δ p) (hlo : ∀ x ∈ f, lo ≤ x) :
    lo * blas2.dot (nodes.map (fun _ => (1 : K))) w (nodes.map δ)
      ≤ blas2.dot f w (nodes.map δ) := by
  induction nodes generalizing f w with
  | nil => simp [blas2.dot]
  | cons p ps ih =>
    cases w with
    | nil => simp at hlen
    | cons v vs =>
      cases f with
      | nil => simp at hf
      | cons y ys =>
        simp only [List.map_cons, blas2.dot]
        have hv : 0 < v := hw v (List.mem_cons_self _ _)
        have hp : 0 ≤ δ p := hδ p (List.mem_cons_self _ _)
        have hy : lo ≤ y := hlo y (List.mem_cons_self _ _)
        have hrest := ih ys vs (by simpa using hf) (by simpa using hlen)
          (fun x hx => hw x (List.mem_cons_of_mem _ hx))
          (fun q hq => hδ q (List.mem_cons_of_mem _ hq))
          (fun x hx => hlo x (List.mem_cons_of_mem _ hx))
        have h1 : lo * (1 * v * δ p) ≤ y * v * δ p := by
          have : 0 ≤ v * δ p := by positivity
          nlinarith
        linarith

theorem dot_upper {K α : Type} [LinearOrderedField K] (δ : α → K) (hi : K) (nodes : List α)
    (f w : List K) (hf : f.length = nodes.length) (hlen : w.length = nodes.length)
    (hw : ∀ x ∈ w, 0 < x) (hδ : ∀ p ∈ nodes, 0 ≤ δ p) (hhi : ∀ x ∈ f, x ≤ hi) :
    blas2.dot f w (nodes.map δ)
      ≤ hi * blas2.dot (nodes.map (fun _ => (1 : K))) w (nodes.map δ) := by
  induction nodes generalizing f w with
  | nil => simp [blas2.dot]
  | cons p ps ih =>
    cases w with
    | nil => simp at hlen
    | cons v vs =>
      cases f with
      | nil => simp at hf
      | cons y ys =>
        simp only [List.map_cons, blas2.dot]
        have hv : 0 < v := hw v (List.mem_cons_self _ _)
        have hp : 0 ≤ δ p := hδ p (List.mem_cons_self _ _)
        have hy : y ≤ hi := hhi y (List.mem_cons_self _ _)
        have hrest := ih ys vs (by simpa using hf) (by simpa using hlen)
          (fun x hx => hw x (List.mem_cons_of_mem _ hx))
          (fun q hq => hδ q (List.mem_cons_of_mem _ hq))
          (fun x hx => hhi x (List.mem_cons_of_mem _ hx))
        have h1 : y * v * δ p ≤ hi * (1 * v * δ p) := by
          have : 0 ≤ v * δ p := by positivity
          nlinarith
        linarith


theorem delta_real_nonneg (d : geo.DeltaFunction ℝ) (R Z : ℝ) :
    0 ≤ d.call (Libm.mk Real.sqrt Real.exp Real.pi) R Z := by
  simp only [geo.DeltaFunction.call]
  positivity

theorem delta_real_pos (d : geo.DeltaFunction ℝ) (R Z : ℝ) (heps : 0 < d.epsilon)
    (hgrad : d.c.psipR R Z ≠ 0 ∨ d.c.psipZ R Z ≠ 0) :
    0 < d.call (Libm.mk Real.sqrt Real.exp Real.pi) R Z := by
  simp only [geo.DeltaFunction.call]
  have hpi : (0 : ℝ) < Real.pi := Real.pi_pos
  have h1 : 0 < Real.sqrt (2 * Real.pi * d.epsilon) := Real.sqrt_pos.mpr (by positivity)
  have h2 : 0 < d.c.psipR R Z * d.c.psipR R Z + d.c.psipZ R Z * d.c.psipZ R Z := by
    rcases hgrad with h | h
    · have := mul_self_pos.mpr h
      have := mul_self_nonneg (d.c.psipZ R Z)
      linarith
    · have := mul_self_pos.mpr h
      have := mul_self_nonneg (d.c.psipR R Z)
      linarith
  have h3 := Real.sqrt_pos.mpr h2
  positivity

/-- The bandwidth the constructor of `FluxSurfaceAverage` computes, in terms of its two
reductions, each of which is the larger of the seed `0` and the sample maximum. -/
theorem fsa_bandwidth_eq {K : Type} [LinearOrderedField K]
    (g : Grid2d K) (c : Collective K) (f : List K) :
    (FluxSurfaceAverage.construct g c f).deltaf.epsilon =
        specBandwidth g (thrust.reduce (evaluate c.psipZ g) 0 thrust.maximum)
          (thrust.reduce (evaluate c.psipR g) 0 thrust.maximum) ∧
    ((thrust.reduce (evaluate c.psipZ g) 0 thrust.maximum : K) : WithBot K) =
        max ((0 : K) : WithBot K) (List.maximum (g.nodes.map (fun p => c.psipZ p.1 p.2))) ∧
    ((thrust.reduce (evaluate c.psipR g) 0 thrust.maximum : K) : WithBot K) =
        max ((0 : K) : WithBot K) (List.maximum (g.nodes.map (fun p => c.psipR p.1 p.2))) ∧
    (FluxSurfaceAverage.construct g c f).deltaf.psivalue = 0 := by
  refine ⟨?_, reduce_maximum_coe _, reduce_maximum_coe _, rfl⟩
  simp only [FluxSurfaceAverage.construct, geo.DeltaFunction.setepsilon, specBandwidth]
  rw [div_div, div_div]

/-- The bandwidth the constructor of `SafetyFactor` computes, in terms of its two
reductions, and its relation to the one of `FluxSurfaceAverage`. -/
theorem safetyFactor_bandwidth_eq {K : Type} [LinearOrderedField K]
    (g : Grid2d K) (c : Collective K) (f : List K) :
    (SafetyFactor.construct g c f).deltaf.epsilon =
        specSafetyBandwidth g (thrust.reduce (evaluate c.psipZ g) 0 thrust.maximum)
          (thrust.reduce (evaluate c.psipR g) 0 thrust.maximum) ∧
    (SafetyFactor.construct g c f).deltaf.epsilon =
        4 * (FluxSurfaceAverage.construct { g with n := 1 } c f).deltaf.epsilon := by
  constructor
  · rfl
  · simp [SafetyFactor.construct, FluxSurfaceAverage.construct, geo.DeltaFunction.setepsilon,
      evaluate]

theorem reduce_maximum_eq_of_nonneg {K : Type} [LinearOrder K] [Zero K] (l : List K) (mx : K)
    (hmax : List.maximum l = (mx : WithBot K)) (h0 : 0 ≤ mx) :
    thrust.reduce l 0 thrust.maximum = mx := by
  have h := reduce_maximum_coe l
  rw [hmax, ← WithBot.coe_max, max_eq_right h0] at h
  exact WithBot.coe_injective h

/-- Where the maxima of the samples of `psipZ` and `psipR` are not negative, both
constructors store the bandwidth of the specification's formula. -/
theorem bandwidth_eq_spec_of_nonneg {K : Type} [LinearOrderedField K]
    (g : Grid2d K) (c : Collective K) (f : List K) (maxZ maxR : K)
    (hZ : List.maximum (evaluate c.psipZ g) = (maxZ : WithBot K))
    (hR : List.maximum (evaluate c.psipR g) = (maxR : WithBot K))
    (hZ0 : 0 ≤ maxZ) (hR0 : 0 ≤ maxR) :
    (FluxSurfaceAverage.construct g c f).deltaf.epsilon = specBandwidth g maxZ maxR ∧
    (SafetyFactor.construct g c f).deltaf.epsilon = specSafetyBandwidth g maxZ maxR := by
  have h1 := (fsa_bandwidth_eq g c f).1
  have h2 := (safetyFactor_bandwidth_eq g c f).1
  rw [reduce_maximum_eq_of_nonneg _ maxZ hZ hZ0, reduce_maximum_eq_of_nonneg _ maxR hR hR0]
    at h1 h2
  exact ⟨h1, h2⟩

theorem run_epsilon_eq_last {K : Type} (ops : List (geo.DeltaOp K)) (d : geo.DeltaFunction K) :
    (d.run ops).epsilon = geo.lastEpsilon d.epsilon ops := by
  induction ops generalizing d with
  | nil => rfl
  | cons op rest ih =>
    cases op with
    | setepsilon e => exact ih (d.setepsilon e)
    | setpsi p => exact ih (d.setpsi p)

/-! ## The claims -/

/-- C1: on a freshly constructed `FluxSurfaceAverage`, `operator()(psi0)` returns
`dot(f, w, d) / dot(ones, w, d)`, where `w` are the grid's weights, `ones` is the
all-ones field with one entry per node and `d` is the delta sampled at every node
with level `psi0` and the bandwidth the constructor stored. -/
theorem C1_fsa_call_is_quotient {K : Type} [LinearOrderedField K] (m : Libm K)
    (g : Grid2d K) (c : Collective K) (f : List K) (psi0 : K) :
    ((FluxSurfaceAverage.construct g c f).call m psi0).1 =
      blas2.dot f g.w
          (g.nodes.map (fun p => geo.DeltaFunction.call m
            ⟨c, (FluxSurfaceAverage.construct g c f).deltaf.epsilon, psi0⟩ p.1 p.2)) /
        blas2.dot (List.replicate g.nodes.length 1) g.w
          (g.nodes.map (fun p => geo.DeltaFunction.call m
            ⟨c, (FluxSurfaceAverage.construct g c f).deltaf.epsilon, psi0⟩ p.1 p.2)) := by
  rw [← evaluate_one_eq_replicate]
  rfl

/-- C2: over the reals, for every bandwidth `eps > 0`, level `psi0` and point `(R,Z)`,
`DeltaFunction::operator()(R,Z)` equals
`(1/sqrt(2*pi*eps)) * exp(-(psip-psi0)^2/(2*eps)) * sqrt(psipR^2 + psipZ^2)`. -/
theorem C2_delta_formula (c : Collective ℝ) (eps psi0 R Z : ℝ) (_heps : 0 < eps) :
    geo.DeltaFunction.call (Libm.mk Real.sqrt Real.exp Real.pi) ⟨c, eps, psi0⟩ R Z =
      (1 / Real.sqrt (2 * Real.pi * eps)) *
        Real.exp (-(c.psip R Z - psi0) ^ 2 / (2 * eps)) *
        Real.sqrt (c.psipR R Z ^ 2 + c.psipZ R Z ^ 2) := by
  simp only [geo.DeltaFunction.call]
  rw [div_div, ← pow_two, ← pow_two, ← pow_two]

/-- Witness of C2: bandwidth 1, level 0, the point (1,2), flux `R*Z`. -/
theorem C2_delta_formula_witness :
    (0 : ℝ) < 1 ∧
    geo.DeltaFunction.call (Libm.mk Real.sqrt Real.exp Real.pi)
        ⟨⟨fun R Z => R * Z, fun _ Z => Z, fun R _ => R, fun _ _ => 1⟩, 1, 0⟩ 1 2 =
      (1 / Real.sqrt (2 * Real.pi * 1)) *
        Real.exp (-((1 : ℝ) * 2 - 0) ^ 2 / (2 * 1)) *
        Real.sqrt ((2 : ℝ) ^ 2 + (1 : ℝ) ^ 2) :=
  ⟨by norm_num,
   C2_delta_formula ⟨fun R Z => R * Z, fun _ Z => Z, fun R _ => R, fun _ _ => 1⟩ 1 0 1 2
     (by norm_num)⟩

/-- C3 evaluated on the code: on the one-node grid `grid1` with `psipR = psipZ = -1`
(`Nx = Ny = n = 1`) the maxima of the samples are both `-1`, so the claimed bandwidth
is `|(-1)/(1*1) + (-1)/(1*1)| = 2`, but the reductions seeded with `0` return `0`
and the constructor of `FluxSurfaceAverage` stores the bandwidth `0`. -/
theorem C3_fsa_bandwidth_at_negative_gradients :
    List.maximum (evaluate geomNeg.psipZ grid1) = ((-1 : ℚ) : WithBot ℚ) ∧
    List.maximum (evaluate geomNeg.psipR grid1) = ((-1 : ℚ) : WithBot ℚ) ∧
    specBandwidth grid1 (-1) (-1) = 2 ∧
    (FluxSurfaceAverage.construct grid1 geomNeg [1]).deltaf.epsilon = 0 ∧
    (FluxSurfaceAverage.construct grid1 geomNeg [1]).deltaf.epsilon
      ≠ specBandwidth grid1 (-1) (-1) := by
  have h1 : specBandwidth grid1 (-1) (-1) = 2 := by
    norm_num [specBandwidth, grid1]
  have h2 : (FluxSurfaceAverage.construct grid1 geomNeg [1]).deltaf.epsilon = 0 := by
    norm_num [FluxSurfaceAverage.construct, geo.DeltaFunction.setepsilon, thrust.reduce,
      thrust.maximum, evaluate, grid1, geomNeg]
  refine ⟨?_, ?_, h1, h2, ?_⟩
  · simp [evaluate, grid1, geomNeg, List.maximum_cons]
  · simp [evaluate, grid1, geomNeg, List.maximum_cons]
  · rw [h1, h2]; norm_num

/-- C4: when the denominator `dot(ones, w, d)` is non-zero, a `FluxSurfaceAverage`
built with the constant target field `f = 1` returns `1` at every level `psi0`. -/
theorem C4_fsa_of_one {K : Type} [LinearOrderedField K] (m : Libm K)
    (g : Grid2d K) (c : Collective K) (psi0 : K)
    (hvol : blas2.dot (evaluate one g) (create.weights g)
        (evaluate (geo.DeltaFunction.call m
          ⟨c, (FluxSurfaceAverage.construct g c (evaluate one g)).deltaf.epsilon, psi0⟩) g) ≠ 0) :
    ((FluxSurfaceAverage.construct g c (evaluate one g)).call m psi0).1 = 1 :=
  div_self hvol

/-- Witness of C4: the real one-node grid `gridR1` with the geometry `geomR`, level 0,
with the square root, exponential and pi of the reals. -/
theorem C4_fsa_of_one_witness :
    blas2.dot (evaluate one gridR1) (create.weights gridR1)
        (evaluate (geo.DeltaFunction.call (Libm.mk Real.sqrt Real.exp Real.pi)
          ⟨geomR, (FluxSurfaceAverage.construct gridR1 geomR (evaluate one gridR1)).deltaf.epsilon,
            0⟩) gridR1) ≠ 0 ∧
    ((FluxSurfaceAverage.construct gridR1 geomR (evaluate one gridR1)).call
        (Libm.mk Real.sqrt Real.exp Real.pi) 0).1 = 1 := by
  have he : (FluxSurfaceAverage.construct gridR1 geomR (evaluate one gridR1)).deltaf.epsilon
      = 2 := by
    norm_num [FluxSurfaceAverage.construct, geo.DeltaFunction.setepsilon, thrust.reduce,
      thrust.maximum, evaluate, gridR1, geomR]
  have hvol : blas2.dot (evaluate one gridR1) (create.weights gridR1)
        (evaluate (geo.DeltaFunction.call (Libm.mk Real.sqrt Real.exp Real.pi)
          ⟨geomR, (FluxSurfaceAverage.construct gridR1 geomR (evaluate one gridR1)).deltaf.epsilon,
            0⟩) gridR1) ≠ 0 := by
    rw [he]
    simp only [evaluate, one, create.weights, gridR1, geomR, List.map, blas2.dot,
      geo.DeltaFunction.call]
    have hpi : (0 : ℝ) < Real.pi := Real.pi_pos
    apply ne_of_gt
    positivity
  exact ⟨hvol, C4_fsa_of_one (Libm.mk Real.sqrt Real.exp Real.pi) gridR1 geomR 0 hvol⟩

/-- C5: on a freshly constructed `SafetyFactor`, `operator()(psi0)` returns
`dot(f, w, d) / (2*pi)`, with `d` the delta sampled over the grid at level `psi0`
and the bandwidth the constructor stored; the result does not change when the
stored all-ones field or the provider's `ipol` (the input of `Alpha`) is replaced. -/
theorem C5_safety_factor_call {K : Type} [LinearOrderedField K] (m : Libm K)
    (g : Grid2d K) (c : Collective K) (f : List K) (psi0 : K) :
    ((SafetyFactor.construct g c f).call m psi0).1 =
      blas2.dot f g.w
          (g.nodes.map (fun p => geo.DeltaFunction.call m
            ⟨c, (SafetyFactor.construct g c f).deltaf.epsilon, psi0⟩ p.1 p.2)) /
        (2 * m.pi) ∧
    (∀ ones : List K,
      (SafetyFactor.call m { SafetyFactor.construct g c f with oneongrid := ones } psi0).1 =
        ((SafetyFactor.construct g c f).call m psi0).1) ∧
    (∀ ipol : K → K → K,
      ((SafetyFactor.construct g { c with ipol := ipol } f).call m psi0).1 =
        ((SafetyFactor.construct g c f).call m psi0).1) :=
  ⟨rfl, fun _ => rfl, fun _ => rfl⟩

/-- C6 evaluated on the code: on the one-node grid `grid1` with `psipR = psipZ = -1`
(`Nx = Ny = 1`) the maxima of the samples are both `-1`, so the claimed bandwidth is
`4 * |(-1)/1 + (-1)/1| = 8`, but the reductions seeded with `0` return `0` and the
constructor of `SafetyFactor` stores the bandwidth `0`. -/
theorem C6_safety_factor_bandwidth_at_negative_gradients :
    List.maximum (evaluate geomNeg.psipZ grid1) = ((-1 : ℚ) : WithBot ℚ) ∧
    List.maximum (evaluate geomNeg.psipR grid1) = ((-1 : ℚ) : WithBot ℚ) ∧
    specSafetyBandwidth grid1 (-1) (-1) = 8 ∧
    (SafetyFactor.construct grid1 geomNeg [1]).deltaf.epsilon = 0 ∧
    (SafetyFactor.construct grid1 geomNeg [1]).deltaf.epsilon
      ≠ specSafetyBandwidth grid1 (-1) (-1) := by
  have h1 : specSafetyBandwidth grid1 (-1) (-1) = 8 := by
    norm_num [specSafetyBandwidth, grid1]
  have h2 : (SafetyFactor.construct grid1 geomNeg [1]).deltaf.epsilon = 0 := by
    norm_num [SafetyFactor.construct, geo.DeltaFunction.setepsilon, thrust.reduce,
      thrust.maximum, evaluate, grid1, geomNeg]
  refine ⟨?_, ?_, h1, h2, ?_⟩
  · simp [evaluate, grid1, geomNeg, List.maximum_cons]
  · simp [evaluate, grid1, geomNeg, List.maximum_cons]
  · rw [h1, h2]; norm_num

/-- C7: over the reals, at every point `(R,Z)` with `R ≠ 0` and non-zero flux
gradient, `Alpha::operator()(R,Z)` equals
`(1/R) * ipol(R,Z) / sqrt(psipR(R,Z)^2 + psipZ(R,Z)^2)`. -/
theorem C7_alpha_formula (c : Collective ℝ) (R Z : ℝ) (_hR : R ≠ 0)
    (_hgrad : c.psipR R Z ^ 2 + c.psipZ R Z ^ 2 ≠ 0) :
    geo.Alpha.call (Libm.mk Real.sqrt Real.exp Real.pi) ⟨c⟩ R Z =
      (1 / R) * c.ipol R Z / Real.sqrt (c.psipR R Z ^ 2 + c.psipZ R Z ^ 2) := by
  simp only [geo.Alpha.call]
  rw [← pow_two, ← pow_two, mul_div_assoc]

/-- Witness of C7: the point (2,1) with `psipR = Z`, `psipZ = R`, `ipol = 1`. -/
theorem C7_alpha_formula_witness :
    (2 : ℝ) ≠ 0 ∧ ((1 : ℝ) ^ 2 + (2 : ℝ) ^ 2 ≠ 0) ∧
    geo.Alpha.call (Libm.mk Real.sqrt Real.exp Real.pi)
        ⟨⟨fun R Z => R * Z, fun _ Z => Z, fun R _ => R, fun _ _ => 1⟩⟩ 2 1 =
      (1 / 2) * 1 / Real.sqrt ((1 : ℝ) ^ 2 + (2 : ℝ) ^ 2) :=
  ⟨by norm_num, by norm_num,
   C7_alpha_formula ⟨fun R Z => R * Z, fun _ Z => Z, fun R _ => R, fun _ _ => 1⟩ 2 1
     (by norm_num) (by norm_num)⟩

/-- C9 fails as stated: the constructor stores the bandwidth `0` it is given (as the
constructor of `FluxSurfaceAverage` does for its initial delta), and `setepsilon(-1)`
stores `-1`. -/
theorem C9_counterexample :
    ¬ (0 < (geo.DeltaFunction.mk geomLin 0 0).epsilon) ∧
    ¬ (0 < ((geo.DeltaFunction.mk geomLin 1 0).setepsilon (-1)).epsilon) ∧
    ¬ (0 < ((geo.DeltaFunction.mk geomLin 1 0).run [geo.DeltaOp.setepsilon (-1),
        geo.DeltaOp.setpsi 2]).epsilon) := by
  refine ⟨?_, ?_, ?_⟩ <;>
    norm_num [geo.DeltaFunction.setepsilon, geo.DeltaFunction.run, geo.DeltaFunction.step,
      geo.DeltaFunction.setpsi]

/-- C9 (amended): the constructor and `setepsilon` store the bandwidth they are given,
whatever its sign, and `setpsi` leaves it alone: after the constructor and any
sequence of `setepsilon` and `setpsi` calls the bandwidth is the one last given (the
argument of the last `setepsilon`, or of the constructor if there was none). So the
state has bandwidth `> 0` exactly when the bandwidth last given is `> 0`, which is
the case when the constructor and every `setepsilon` were given a positive one. -/
theorem C9_bandwidth_is_last_supplied {K : Type} [LinearOrderedField K]
    (c : Collective K) (eps psi : K) (ops : List (geo.DeltaOp K)) :
    (geo.DeltaFunction.mk c eps psi).epsilon = eps ∧
    (∀ (d : geo.DeltaFunction K) (e : K),
      (d.setepsilon e).epsilon = e ∧ (d.setepsilon e).psivalue = d.psivalue) ∧
    (∀ (d : geo.DeltaFunction K) (p : K), (d.setpsi p).epsilon = d.epsilon) ∧
    ((geo.DeltaFunction.mk c eps psi).run ops).epsilon = geo.lastEpsilon eps ops ∧
    (0 < ((geo.DeltaFunction.mk c eps psi).run ops).epsilon ↔
      0 < geo.lastEpsilon eps ops) ∧
    (0 < eps → (∀ e, geo.DeltaOp.setepsilon e ∈ ops → 0 < e) →
      0 < ((geo.DeltaFunction.mk c eps psi).run ops).epsilon) := by
  have hlast := run_epsilon_eq_last ops (geo.DeltaFunction.mk c eps psi)
  refine ⟨rfl, fun _ _ => ⟨rfl, rfl⟩, fun _ _ => rfl, hlast, ?_, ?_⟩
  · rw [hlast]
  · intro heps hops
    exact run_epsilon_pos ops ⟨c, eps, psi⟩ heps hops

/-- Witness of C9: constructed with bandwidth 1, then `setpsi(2)`, `setepsilon(3)`:
the bandwidth is 3, the one last given, and it is positive. -/
theorem C9_bandwidth_is_last_supplied_witness :
    ((geo.DeltaFunction.mk geomLin 1 0).run
      [geo.DeltaOp.setpsi 2, geo.DeltaOp.setepsilon 3]).epsilon = 3 ∧
    0 < ((geo.DeltaFunction.mk geomLin 1 0).run
      [geo.DeltaOp.setpsi 2, geo.DeltaOp.setepsilon 3]).epsilon :=
  ⟨(C9_bandwidth_is_last_supplied geomLin 1 0
      [geo.DeltaOp.setpsi 2, geo.DeltaOp.setepsilon 3]).2.2.2.1,
   (C9_bandwidth_is_last_supplied geomLin 1 0
      [geo.DeltaOp.setpsi 2, geo.DeltaOp.setepsilon 3]).2.2.2.2.2 (by norm_num) (by
      intro e he
      simp at he
      rw [he]; norm_num)⟩

/-- C11: `operator()` of `FluxSurfaceAverage` and of `SafetyFactor` changes only the
level of the delta: after any sequence of earlier calls the grid, target field,
weights, all-ones field, bandwidth and provider are those of the freshly
constructed instance, and the value returned for `psi0` equals the value the
first call at `psi0` returns on the freshly constructed instance. -/
theorem C11_calls_only_change_level {K : Type} [LinearOrderedField K] (m : Libm K)
    (g : Grid2d K) (c : Collective K) (f : List K) (levels : List K) (psi0 : K) :
    ((((FluxSurfaceAverage.construct g c f).calls m levels).call m psi0).1 =
        ((FluxSurfaceAverage.construct g c f).call m psi0).1 ∧
      (((FluxSurfaceAverage.construct g c f).calls m levels).call m psi0).2 =
        { FluxSurfaceAverage.construct g c f with
          deltaf := (FluxSurfaceAverage.construct g c f).deltaf.setpsi psi0 }) ∧
    ((((SafetyFactor.construct g c f).calls m levels).call m psi0).1 =
        ((SafetyFactor.construct g c f).call m psi0).1 ∧
      (((SafetyFactor.construct g c f).calls m levels).call m psi0).2 =
        { SafetyFactor.construct g c f with
          deltaf := (SafetyFactor.construct g c f).deltaf.setpsi psi0 }) := by
  obtain ⟨a1, a2, a3, a4, a5, a6⟩ := fsa_calls_frame m levels (FluxSurfaceAverage.construct g c f)
  obtain ⟨b1, b2, b3, b4, b5, b6⟩ :=
    safetyFactor_calls_frame m levels (SafetyFactor.construct g c f)
  refine ⟨⟨fsa_call_congr m _ _ psi0 a1 a2 a3 a4 a5 a6, ?_⟩,
    ⟨safetyFactor_call_congr m _ _ psi0 b1 b2 b3 b5 b6, ?_⟩⟩
  · simp only [FluxSurfaceAverage.call, geo.DeltaFunction.setpsi, a1, a2, a3, a4, a5, a6]
  · simp only [SafetyFactor.call, geo.DeltaFunction.setpsi, b1, b2, b3, b4, b5, b6]

/-- C12: for all six functors `(f, fx, fy, fxx, fxy, fyy)` passed to the constructor
of `BinaryFunctorsLvl2`, each of the accessors `f()`, `dfx()`, `dfy()`, `dfxx()`,
`dfxy()`, `dfyy()` returns a functor that evaluates at every `(R,Z)` to the value of
the corresponding constructor argument; the second derivatives are stored in the
array of `BinaryFunctorsLvl2` and leave the array of the base class as it was. -/
theorem C12_lvl2_round_trip {K : Type} (f fx fy fxx fxy fyy : geo.aBinaryFunctor K) (R Z : K) :
    ((geo.BinaryFunctorsLvl2.construct (some f) (some fx) (some fy)
        (some fxx) (some fxy) (some fyy)).f.map (fun h => h.call R Z) = some (f.call R Z) ∧
     (geo.BinaryFunctorsLvl2.construct (some f) (some fx) (some fy)
        (some fxx) (some fxy) (some fyy)).dfx.map (fun h => h.call R Z) = some (fx.call R Z) ∧
     (geo.BinaryFunctorsLvl2.construct (some f) (some fx) (some fy)
        (some fxx) (some fxy) (some fyy)).dfy.map (fun h => h.call R Z) = some (fy.call R Z)) ∧
    ((geo.BinaryFunctorsLvl2.construct (some f) (some fx) (some fy)
        (some fxx) (some fxy) (some fyy)).dfxx.map (fun h => h.call R Z) = some (fxx.call R Z) ∧
     (geo.BinaryFunctorsLvl2.construct (some f) (some fx) (some fy)
        (some fxx) (some fxy) (some fyy)).dfxy.map (fun h => h.call R Z) = some (fxy.call R Z) ∧
     (geo.BinaryFunctorsLvl2.construct (some f) (some fx) (some fy)
        (some fxx) (some fxy) (some fyy)).dfyy.map (fun h => h.call R Z) = some (fyy.call R Z)) ∧
    (geo.BinaryFunctorsLvl2.construct (some f) (some fx) (some fy)
        (some fxx) (some fxy) (some fyy)).base =
      geo.BinaryFunctorsLvl1.construct (some f) (some fx) (some fy) :=
  ⟨⟨rfl, rfl, rfl⟩, ⟨rfl, rfl, rfl⟩, rfl⟩

/-- C13 fails as stated: each of the four bundle constructors, given a null pointer
for one constituent, returns a bundle; the handle of that constituent is empty and
only reading it fails. -/
theorem C13_counterexample :
    (geo.BinaryFunctorsLvl1.construct (none : Option (geo.aBinaryFunctor ℚ))
        (geo.make_aBinaryFunctor one) (geo.make_aBinaryFunctor one)).f = none ∧
    (geo.BinaryFunctorsLvl2.construct (geo.make_aBinaryFunctor one)
        (geo.make_aBinaryFunctor one) (geo.make_aBinaryFunctor one)
        (geo.make_aBinaryFunctor one) (geo.make_aBinaryFunctor one)
        (none : Option (geo.aBinaryFunctor ℚ))).dfyy = none ∧
    (geo.BinarySymmTensorLvl1.construct (geo.make_aBinaryFunctor one)
        (geo.make_aBinaryFunctor one) (geo.make_aBinaryFunctor one)
        (geo.make_aBinaryFunctor one) (none : Option (geo.aBinaryFunctor ℚ))).p_4
      = Handle.empty ∧
    (geo.BinaryVectorLvl0.construct (none : Option (geo.aBinaryFunctor ℚ))
        (geo.make_aBinaryFunctor one) (geo.make_aBinaryFunctor one)).p_0 = Handle.empty :=
  ⟨rfl, rfl, rfl, rfl⟩

/-- C13 (amended): constructing a functor bundle always returns a bundle, and each of
its handles holds exactly the pointer that was passed for it: a constituent is an
empty handle exactly when its pointer was null (reading it then fails), and a
bundle built from non-null pointers holds no empty constituent. -/
theorem C13_bundles_store_pointers {K : Type}
    (a b c d e f : Option (geo.aBinaryFunctor K)) :
    ((geo.BinaryFunctorsLvl1.construct a b c).p_0.get = a ∧
     (geo.BinaryFunctorsLvl1.construct a b c).p_1.get = b ∧
     (geo.BinaryFunctorsLvl1.construct a b c).p_2.get = c) ∧
    ((geo.BinaryFunctorsLvl2.construct a b c d e f).base.p_0.get = a ∧
     (geo.BinaryFunctorsLvl2.construct a b c d e f).base.p_1.get = b ∧
     (geo.BinaryFunctorsLvl2.construct a b c d e f).base.p_2.get = c ∧
     (geo.BinaryFunctorsLvl2.construct a b c d e f).p_0.get = d ∧
     (geo.BinaryFunctorsLvl2.construct a b c d e f).p_1.get = e ∧
     (geo.BinaryFunctorsLvl2.construct a b c d e f).p_2.get = f) ∧
    ((geo.BinarySymmTensorLvl1.construct a b c d e).p_0.get = a ∧
     (geo.BinarySymmTensorLvl1.construct a b c d e).p_1.get = b ∧
     (geo.BinarySymmTensorLvl1.construct a b c d e).p_2.get = c ∧
     (geo.BinarySymmTensorLvl1.construct a b c d e).p_3.get = d ∧
     (geo.BinarySymmTensorLvl1.construct a b c d e).p_4.get = e) ∧
    ((geo.BinaryVectorLvl0.construct a b c).p_0.get = a ∧
     (geo.BinaryVectorLvl0.construct a b c).p_1.get = b ∧
     (geo.BinaryVectorLvl0.construct a b c).p_2.get = c) :=
  ⟨⟨rfl, rfl, rfl⟩, ⟨rfl, rfl, rfl, rfl, rfl, rfl⟩, ⟨rfl, rfl, rfl, rfl, rfl⟩, ⟨rfl, rfl, rfl⟩⟩

/-- C14: the clone of `Constant(c)` returns `c` at every `(R,Z)`, the clone of the
adapter around a two-argument callable `g` returns `g(x,y)`, and each clone
evaluates like the object it was cloned from; the same holds for a clone of a clone. -/
theorem C14_clone_evaluates_alike {K : Type} (c : K) (g : K → K → K) (x y : K) :
    ((geo.Constant.mk c).clone.call x y = c ∧
     (geo.Constant.mk c).clone.call x y = (geo.Constant.mk c).call x y ∧
     (geo.Constant.mk c).clone.clone.call x y = c) ∧
    ((geo.BinaryFunctorAdapter.mk g).clone.call x y = g x y ∧
     (geo.BinaryFunctorAdapter.mk g).clone.call x y = (geo.BinaryFunctorAdapter.mk g).call x y ∧
     (geo.BinaryFunctorAdapter.mk g).clone.clone.call x y = g x y ∧
     (geo.make_aBinaryFunctor g).map (fun h => h.call x y) = some (g x y)) :=
  ⟨⟨rfl, rfl, rfl⟩, ⟨rfl, rfl, rfl, rfl⟩⟩

/-- C16: over the reals, for a `FluxSurfaceAverage` whose weights are all positive
and whose bandwidth is positive, with one weight and one sample of the target field
per grid node and the all-ones field the constructor stores: if the flux gradient is
non-zero at some grid node, the value `operator()(psi0)` returns lies between the
minimum and the maximum sample of the target field (there are samples `a` and `b`
of `f` with `a ≤ result ≤ b`). -/
theorem C16_fsa_between_min_and_max (s : FluxSurfaceAverage ℝ) (psi0 : ℝ)
    (hone : s.oneongrid = evaluate one s.g2d)
    (hf : s.f.length = s.g2d.nodes.length)
    (hwlen : s.w2d.length = s.g2d.nodes.length)
    (hw : ∀ x ∈ s.w2d, 0 < x)
    (heps : 0 < s.deltaf.epsilon)
    (hgrad : ∃ p ∈ s.g2d.nodes, s.deltaf.c.psipR p.1 p.2 ≠ 0 ∨ s.deltaf.c.psipZ p.1 p.2 ≠ 0) :
    ∃ a ∈ s.f, ∃ b ∈ s.f,
      a ≤ (s.call (Libm.mk Real.sqrt Real.exp Real.pi) psi0).1 ∧
      (s.call (Libm.mk Real.sqrt Real.exp Real.pi) psi0).1 ≤ b := by
  obtain ⟨p0, hp0, hp0grad⟩ := hgrad
  have hne : s.f ≠ [] := by
    intro h
    rw [h] at hf
    have : s.g2d.nodes = [] := List.length_eq_zero.mp hf.symm
    rw [this] at hp0
    simp at hp0
  obtain ⟨a, ha, hmin⟩ := list_exists_min s.f hne
  obtain ⟨b, hb, hmax⟩ := list_exists_max s.f hne
  refine ⟨a, ha, b, hb, ?_⟩
  have hδ : ∀ p ∈ s.g2d.nodes, 0 ≤ (fun p : ℝ × ℝ =>
      (s.deltaf.setpsi psi0).call (Libm.mk Real.sqrt Real.exp Real.pi) p.1 p.2) p :=
    fun p _ => delta_real_nonneg _ _ _
  have hden := dot_one_pos _ s.g2d.nodes s.w2d hwlen hw hδ
    ⟨p0, hp0, delta_real_pos (s.deltaf.setpsi psi0) p0.1 p0.2 heps hp0grad⟩
  have hlow := dot_lower _ a s.g2d.nodes s.f s.w2d hf hwlen hw hδ hmin
  have hupp := dot_upper _ b s.g2d.nodes s.f s.w2d hf hwlen hw hδ hmax
  have hcall : (s.call (Libm.mk Real.sqrt Real.exp Real.pi) psi0).1 =
      blas2.dot s.f s.w2d (s.g2d.nodes.map (fun p : ℝ × ℝ =>
        (s.deltaf.setpsi psi0).call (Libm.mk Real.sqrt Real.exp Real.pi) p.1 p.2)) /
      blas2.dot (s.g2d.nodes.map (fun _ => (1 : ℝ))) s.w2d (s.g2d.nodes.map (fun p : ℝ × ℝ =>
        (s.deltaf.setpsi psi0).call (Libm.mk Real.sqrt Real.exp Real.pi) p.1 p.2)) := by
    simp only [FluxSurfaceAverage.call, hone, evaluate, one]
  rw [hcall]
  exact ⟨(le_div_iff₀ hden).mpr hlow, (div_le_iff₀ hden).mpr hupp⟩

/-- Witness of C16: the instance constructed on the real two-node grid `gridR2` with
the geometry `geomR` (calibrated bandwidth 2) and the target field `[3, 5]`, level 0. -/
theorem C16_fsa_between_min_and_max_witness :
    ∃ a ∈ (FluxSurfaceAverage.construct gridR2 geomR [3, 5]).f,
      ∃ b ∈ (FluxSurfaceAverage.construct gridR2 geomR [3, 5]).f,
        a ≤ ((FluxSurfaceAverage.construct gridR2 geomR [3, 5]).call
              (Libm.mk Real.sqrt Real.exp Real.pi) 0).1 ∧
        ((FluxSurfaceAverage.construct gridR2 geomR [3, 5]).call
              (Libm.mk Real.sqrt Real.exp Real.pi) 0).1 ≤ b :=
  C16_fsa_between_min_and_max (FluxSurfaceAverage.construct gridR2 geomR [3, 5]) 0
    rfl rfl rfl
    (by
      intro x hx
      simp [FluxSurfaceAverage.construct, create.weights, gridR2] at hx
      rcases hx with rfl | rfl <;> norm_num)
    (by
      norm_num [FluxSurfaceAverage.construct, geo.DeltaFunction.setepsilon, thrust.reduce,
        thrust.maximum, evaluate, gridR2, geomR])
    ⟨(1, 0), by simp [FluxSurfaceAverage.construct, gridR2],
      Or.inl (by simp [FluxSurfaceAverage.construct, geo.DeltaFunction.setepsilon, geomR])⟩

end dg

namespace toefl

/-- C15 evaluated on the code: with `lx/nx = ly/ny = 1` a blueprint whose `h = 1/2`
is smaller than both passes `consistencyCheck` without a message and without a
warning, while `h = 2` is rejected with the message `h != lx/nx` and `h = 1` passes. -/
theorem C15_check_is_one_sided :
    (blueprintWithH (1 / 2)).consistencyCheck 1 = Except.ok [] ∧
    (blueprintWithH 2).consistencyCheck 1 = Except.error "h != lx/nx" ∧
    (blueprintWithH 1).consistencyCheck 1 = Except.ok [] := by
  refine ⟨?_, ?_, ?_⟩ <;>
    norm_num [Blueprint.consistencyCheck, blueprintWithH, Blueprint.construct, physOk]

end toefl
